import Mathlib

/-!
Verification of the data-curation and model-preparation workflow of the
ODSC hackathon repository (notebooks `step-1-data-curation.ipynb`,
`step-2-download-model.ipynb`, and the step-3 training notebook).

The notebooks are glue code over external frameworks; the logic embedded
here is the curation/formatting/splitting pipeline of step 1 and the
error-handling shape of the conversion cell of step 2.  Pieces whose
implementation is not part of the repository (the NeMo Curator filter and
modifier classes, the `helpers` package, scikit-learn's splitter) are
modelled from the specification's contracts and marked as such.
-/

/-! ## Records and the raw dataset schema -/

/-- A raw record of the Law-StackExchange dataset, as produced by the
document builder: title, question, answer, comma-joined tags, and the two
numeric quality scores. -/
structure RawRecord where
  title : String
  question : String
  answer : String
  tags : String
  question_score : Int
  answer_score : Int
  deriving Repr, DecidableEq

/-- A record after the curation pipeline has dropped the columns
`answer`, `answer_score` and `question_score`. -/
structure CuratedRecord where
  title : String
  question : String
  tags : String
  deriving Repr, DecidableEq

/-- A formatted record as persisted to the JSONL output files:
exactly the fields `input`, `output` and `filename`. -/
structure FormattedRecord where
  input : String
  output : String
  filename : String
  deriving Repr, DecidableEq

/-! ## Text normalization (step 1, `Modify(UnicodeReformatter(), ...)`)

Modelled from the spec: the Unicode reformatter lives in the external
`nemo_curator.modifiers.UnicodeReformatter` class (backed by `ftfy`),
which is not part of this repository.  The spec describes it as rewriting
a text field to a single canonical character encoding with no other
semantic change; it is modelled here as a character-wise rewrite to
canonical representatives. -/

/-- Modelled from the spec: canonical representative of a single character
(non-breaking space to plain space, curly quotes to straight quotes,
fullwidth Latin capital A to ASCII).  Every value of the table is already
canonical. -/
def canon_char (c : Char) : Char :=
  if c = ' ' then ' '
  else if c = '“' then '"'
  else if c = '”' then '"'
  else if c = '‘' then '\''
  else if c = '’' then '\''
  else if c = 'Ａ' then 'A'
  else c

/-- Modelled from the spec: the text normalizer (`UnicodeReformatter`)
rewrites a text to its canonical form, character by character. -/
def fix_text (s : String) : String := String.mk (s.data.map canon_char)

/-- The normalization stage of `run_curation_pipeline`: the pipeline
applies the Unicode reformatter to the `title` field and then to the
`question` field. -/
def normalize_record (r : RawRecord) : RawRecord :=
  { r with title := fix_text r.title, question := fix_text r.question }

/-! ## Word-count filter (step 1, `ScoreFilter(WordCountFilter(...))`) -/

/-- Number of maximal runs of non-whitespace characters; the flag records
whether the previous character belonged to a word. -/
def count_words : List Char → Bool → Nat
  | [], _ => 0
  | c :: cs, in_word =>
    if c.isWhitespace then count_words cs false
    else (if in_word then 0 else 1) + count_words cs true

/-- Modelled from the spec: the word count of a text, the score computed by
the external `nemo_curator.filters.WordCountFilter` — the number of
whitespace-separated words (maximal non-whitespace runs, as in Python's
`len(text.split())`). -/
def word_count (s : String) : Nat := count_words s.data false

/-- Modelled from the spec: `WordCountFilter(min_words, max_words)` keeps a
document iff `min_words <= word_count <= max_words` (inclusive bounds). -/
def word_count_filter_keep (min_words max_words : Nat) (text : String) : Bool :=
  min_words ≤ word_count text && word_count text ≤ max_words

/-! ## Score-threshold filter (step 1, `ScoreFilter(FilterLowScores(...))`) -/

/-- Modelled from the spec: `FilterLowScores` is implemented in
`helpers/filters.py`, which is not under `src/`; per the spec it passes a
record iff its precomputed score is `>= score_threshold`, with no
transformation of the value. -/
def filter_low_scores_keep (score_threshold : Int) (score : Int) : Bool :=
  score_threshold ≤ score

/-! ## The curation pipeline of `run_curation_pipeline` -/

/-- Stage 1 of the pipeline: unify the text encoding of `title` and
`question`. -/
def curation_normalize (rows : List RawRecord) : List RawRecord :=
  rows.map normalize_record

/-- Stage 2: filter on the question word count, bounds 50 and 500. -/
def curation_word_filter (rows : List RawRecord) : List RawRecord :=
  rows.filter fun r => word_count_filter_keep 50 500 r.question

/-- Stage 3: filter out records whose question score is below 0. -/
def curation_score_filter (rows : List RawRecord) : List RawRecord :=
  rows.filter fun r => filter_low_scores_keep 0 r.question_score

/-- Stage 4: drop the columns `answer`, `answer_score`, `question_score`. -/
def curation_drop_columns (rows : List RawRecord) : List CuratedRecord :=
  rows.map fun r => ⟨r.title, r.question, r.tags⟩

/-- `run_curation_pipeline`: normalization, the two filters, then the
column drop, applied strictly in this order. -/
def run_curation_pipeline (rows : List RawRecord) : List CuratedRecord :=
  curation_drop_columns (curation_score_filter (curation_word_filter (curation_normalize rows)))

/-! ## `format_dataset` -/

/-- The fixed instruction preamble prepended to every formatted record. -/
def SYSTEM_PROMPT : String :=
  "Read the following title and question about a legal issue and assign the most appropriate tag to it. All tags must be in lowercase, ordered lexicographically and separated by commas.\n\n"

/-- An input row of `format_dataset`.  The dataframe either has a `tags`
column (every row carries a tags string) or not; column presence is
recorded at the dataset level by the `has_tags` argument below, and the
`tags` value of a row is meaningful only when the column is present. -/
structure FormatInputRecord where
  title : String
  question : String
  tags : String
  deriving Repr, DecidableEq

/-- The per-row action of `format_dataset`: build `input` from the fixed
prompt, the title and the question; set `output` to the tags string when
the dataset has a `tags` column and to the empty string otherwise; tag the
row with the destination `filename`. -/
def format_record (has_tags : Bool) (filename : String) (r : FormatInputRecord) : FormattedRecord :=
  { input := SYSTEM_PROMPT ++ "TITLE:\n" ++ r.title ++ "\n\n" ++ "QUESTION:\n" ++ r.question
    output := if has_tags then r.tags else ""
    filename := filename }

/-- `format_dataset`: every row of the dataset is mapped to a formatted
record; `has_tags` records whether the dataframe has a `tags` column. -/
def format_dataset (has_tags : Bool) (filename : String) (rows : List FormatInputRecord) :
    List FormattedRecord :=
  rows.map (format_record has_tags filename)

/-! ## Splitting (`VAL_RATIO`, `val_size`, `train_test_split`) -/

/-- The validation ratio of the splitting cell (`VAL_RATIO = 0.05`). -/
def VAL_RATIO : ℚ := 5 / 100

/-- `val_size = int(len(df) * VAL_RATIO)`: Python `int()` truncates toward
zero, which for the non-negative product is the floor. -/
def val_size (n : Nat) (ratio : ℚ) : Nat := (⌊(n : ℚ) * ratio⌋).toNat

/-- Modelled from the spec: scikit-learn's `train_test_split` with an
integer `test_size` and a fixed `random_state` shuffles the rows with the
seeded generator, takes the first `test_size` shuffled rows as the test
(validation) partition and the remaining rows as the train partition.
The seeded shuffle is external; it is modelled by passing the shuffled
order explicitly (a permutation of the input). -/
def train_test_split (shuffled : List α) (test_size : Nat) : List α × List α :=
  (shuffled.drop test_size, shuffled.take test_size)

/-- The splitting cell of step 1: assert the dataset is non-empty, assert
the ratio lies in [0,1], and only then split.  A failed assertion is a
fatal error and nothing is written; the written pair is produced only in
the `ok` branch. -/
def split_cell (df : List α) (ratio : ℚ) (shuffled : List α) :
    Except String (List α × List α) :=
  if df.length = 0 then .error "The dataset is empty."
  else if ¬ (0 ≤ ratio ∧ ratio ≤ 1) then .error "VAL_RATIO must be between 0 and 1."
  else .ok (train_test_split shuffled (val_size df.length ratio))

/-! ## Column bookkeeping of the dataframe operations (for the shape of
the persisted records)

The pandas operations of step 1 are modelled at the schema level: a
dataframe's rows all share one column list; `drop` removes columns and an
assignment `df[c] = ...` appends the column `c` unless it already
exists. -/

/-- Schema action of `df.drop(columns=dropped)`. -/
def drop_columns (cols dropped : List String) : List String :=
  cols.filter fun c => ¬ dropped.contains c

/-- Schema action of the assignment `df[c] = ...`. -/
def assign_column (cols : List String) (c : String) : List String :=
  if cols.contains c then cols else cols ++ [c]

/-- Modelled from the spec: the columns of the raw Law-StackExchange
dataset produced by `helpers.docbuilder.download_and_convert_dataset`
(not under `src/`): title, question, answer, tags and the two scores. -/
def raw_columns : List String :=
  ["title", "question", "answer", "tags", "question_score", "answer_score"]

/-- Modelled from the spec: the columns of the submission input file
`evaluation-dataset-verified-for-participants.jsonl`: title and question,
no tags. -/
def submission_columns : List String := ["title", "question"]

/-- Schema action of `run_curation_pipeline`: the filters and normalizers
keep the columns unchanged; the pipeline ends by dropping `answer`,
`answer_score` and `question_score`. -/
def curation_pipeline_columns (cols : List String) : List String :=
  drop_columns cols ["answer", "answer_score", "question_score"]

/-- Schema action of `format_dataset`: assign `input`, `output` and
`filename`, drop `title` and `question`, and drop `tags` when present. -/
def format_dataset_columns (cols : List String) : List String :=
  let has_tags := cols.contains "tags"
  let cols := assign_column cols "input"
  let cols := assign_column cols "output"
  let cols := assign_column cols "filename"
  let cols := drop_columns cols ["title", "question"]
  if has_tags then drop_columns cols ["tags"] else cols

/-- Schema of the records persisted to `law-stackexchange-curated.jsonl`:
the raw schema after curation and formatting. -/
def curated_file_columns : List String :=
  format_dataset_columns (curation_pipeline_columns raw_columns)

/-- Schema of the records persisted to `train.jsonl` and `val.jsonl`: the
splitting cell reassigns `filename` on the formatted schema. -/
def split_file_columns : List String :=
  assign_column curated_file_columns "filename"

/-- Schema of the records persisted to `submission.jsonl`: the submission
input schema after `format_dataset`. -/
def submission_file_columns : List String :=
  format_dataset_columns submission_columns

/-! ## The checkpoint-conversion cell of step 2 -/

/-- The outcome of the conversion cell: the contents of
`model_conversion.log` after the run (`none` when the file is absent; the
cell deletes any pre-existing log before running the converter) and the
status lines printed to the user. -/
structure ConversionOutcome where
  log : Option String
  printed : List String
  deriving Repr, DecidableEq

/-- The conversion cell of step 2: run the converter subprocess; on exit
status 0 report success and write no log; otherwise write the captured
combined output to `model_conversion.log` and report the failure. -/
def conversion_cell (returncode : Int) (captured : String) : ConversionOutcome :=
  if returncode = 0 then
    { log := none, printed := ["Model conversion completed successfully!"] }
  else
    { log := some captured
      printed := ["Model conversion failed!", captured,
        "Logs also saved to model_conversion.log."] }


/-! ## Concrete sample data (used to evaluate the definitions) -/

/-- A sample question of 60 whitespace-separated words. -/
def sample_question : String := String.intercalate " " (List.replicate 60 "word")

/-- A sample raw record that passes the word-count filter. -/
def sample_passing_record : RawRecord :=
  { title := "Tenant rights"
    question := sample_question
    answer := "You should consult a lawyer."
    tags := "contracts,leases"
    question_score := 3
    answer_score := 5 }

/-- A sample raw record with a non-negative question score. -/
def sample_scored_record : RawRecord :=
  { title := "Lease issue"
    question := "Can my landlord do this?"
    answer := "No."
    tags := "leases"
    question_score := 2
    answer_score := 1 }

/-! ## Helper lemmas -/

/-- Appending strings appends their character data. -/
lemma string_data_append (s t : String) : (s ++ t).data = s.data ++ t.data := by
  cases s; cases t; rfl

/-- Strings with equal character data are equal. -/
lemma string_eq_of_data (s t : String) (h : s.data = t.data) : s = t := by
  cases s; cases t; cases h; rfl

/-- Appending to a string with non-empty data keeps the data non-empty. -/
lemma string_prefix_data_ne_nil (s t : String) (hs : s.data ≠ []) : (s ++ t).data ≠ [] := by
  rw [string_data_append]
  intro h
  exact hs (List.append_eq_nil.mp h).1

/-- A string with a non-empty prefix is non-empty. -/
lemma string_append_ne_empty (s t : String) (hs : s.data ≠ []) : s ++ t ≠ "" := by
  intro h
  apply hs
  have hd := congrArg String.data h
  rw [string_data_append] at hd
  exact (List.append_eq_nil.mp hd).1

/-- String append is associative. -/
lemma string_append_assoc (a b c : String) : a ++ b ++ c = a ++ (b ++ c) := by
  cases a; cases b; cases c
  show String.mk _ = String.mk _
  rw [List.append_assoc]

/-- The canonical-character table is idempotent: every value of the table
is itself canonical. -/
lemma canon_char_idem (c : Char) : canon_char (canon_char c) = canon_char c := by
  by_cases h1 : c = ' '
  · subst h1; decide
  by_cases h2 : c = '“'
  · subst h2; decide
  by_cases h3 : c = '”'
  · subst h3; decide
  by_cases h4 : c = '‘'
  · subst h4; decide
  by_cases h5 : c = '’'
  · subst h5; decide
  by_cases h6 : c = 'Ａ'
  · subst h6; decide
  have hc : canon_char c = c := by
    unfold canon_char
    rw [if_neg h1, if_neg h2, if_neg h3, if_neg h4, if_neg h5, if_neg h6]
  rw [hc]
  exact hc

/-- The modelled text normalizer is idempotent. -/
lemma fix_text_idem (s : String) : fix_text (fix_text s) = fix_text s := by
  have hfun : canon_char ∘ canon_char = canon_char := funext canon_char_idem
  simp [fix_text, List.map_map, hfun]

/-! ## Claim theorems -/

/-- C9: the text normalization stage is idempotent: applying the Unicode
normalizer to an already-normalized text yields the same text, and
re-running the normalization stage on a record (which normalizes both the
`title` and the `question` field) yields no further change. -/
theorem C9_normalize_idempotent :
    (∀ s : String, fix_text (fix_text s) = fix_text s) ∧
    ∀ r : RawRecord, normalize_record (normalize_record r) = normalize_record r := by
  refine ⟨fix_text_idem, fun r => ?_⟩
  simp [normalize_record, fix_text_idem]

/-- C10: for every record, the formatter produces an `input` equal to the
exact concatenation of the fixed instruction preamble, the segment
"TITLE:\n" followed by the title, and the segment "\n\nQUESTION:\n"
followed by the question; in particular every formatted input begins with
the same fixed non-empty instruction prompt. -/
theorem C10_input_template (has_tags : Bool) (filename : String) (r : FormatInputRecord) :
    (format_record has_tags filename r).input
      = SYSTEM_PROMPT ++ ("TITLE:\n" ++ r.title) ++ ("\n\nQUESTION:\n" ++ r.question) ∧
    SYSTEM_PROMPT ≠ "" ∧
    ∃ rest, (format_record has_tags filename r).input = SYSTEM_PROMPT ++ rest := by
  refine ⟨?_, by decide, ?_⟩
  · apply string_eq_of_data
    simp [format_record, string_data_append, List.append_assoc]
  · refine ⟨"TITLE:\n" ++ r.title ++ "\n\n" ++ "QUESTION:\n" ++ r.question, ?_⟩
    apply string_eq_of_data
    simp [format_record, string_data_append, List.append_assoc]

/-- C6: every persisted output record, in each of
`law-stackexchange-curated.jsonl`, `train.jsonl`, `val.jsonl` and
`submission.jsonl`, has exactly the three columns `input`, `output` and
`filename`: the curation pipeline drops `answer`, `answer_score` and
`question_score`, and the formatter folds `title` and `question` into
`input` and drops `title`, `question` and `tags`. -/
theorem C6_persisted_record_fields :
    curated_file_columns = ["input", "output", "filename"] ∧
    split_file_columns = ["input", "output", "filename"] ∧
    submission_file_columns = ["input", "output", "filename"] := by
  decide

/-- C7: the checkpoint-conversion cell writes the captured diagnostic
output to `model_conversion.log` exactly when the subprocess exit status
is non-zero, in which case it reports the failure; on a zero exit status
it reports success and leaves no log (any pre-existing log was deleted
before the run). -/
theorem C7_conversion_log_iff (returncode : Int) (captured : String) :
    ((conversion_cell returncode captured).log = some captured ↔ returncode ≠ 0) ∧
    ((conversion_cell returncode captured).log = none ↔ returncode = 0) ∧
    ((conversion_cell returncode captured).printed.head?
        = some "Model conversion failed!" ↔ returncode ≠ 0) ∧
    ((conversion_cell returncode captured).printed.head?
        = some "Model conversion completed successfully!" ↔ returncode = 0) := by
  by_cases h : returncode = 0 <;>
    simp [conversion_cell, h]

/-- C2 counterexample: a record whose `tags` field is present but holds
the empty string is formatted with an empty `output` even though the
source record did not lack tags, so "`output` is empty iff the source
record lacked tags" is false as stated (here "the record lacked tags"
is the proposition that the dataset's tags column is absent, i.e.
`true = false` for this dataset). -/
theorem C2_output_empty_iff_counterexample :
    ¬ (((format_record true "law-stackexchange-curated.jsonl"
          ⟨"Tenant rights", "What are my rights?", ""⟩).output = "") ↔ (true = false)) := by
  decide

/-- C2 (amended): formatting is total — every input record yields exactly
one formatted record (the output list has the same length and its i-th
entry is the formatted i-th input) with non-empty `input`; `output` is
empty iff the source record lacked tags OR its tags string was empty. -/
theorem C2_format_total_amended (has_tags : Bool) (filename : String)
    (rows : List FormatInputRecord) :
    (format_dataset has_tags filename rows).length = rows.length ∧
    (∀ i : Nat, (format_dataset has_tags filename rows)[i]?
        = (rows[i]?).map (format_record has_tags filename)) ∧
    ∀ r : FormatInputRecord,
      (format_record has_tags filename r).input ≠ "" ∧
      ((format_record has_tags filename r).output = ""
          ↔ (has_tags = false ∨ r.tags = "")) := by
  refine ⟨by simp [format_dataset], fun i => by simp [format_dataset], fun r => ⟨?_, ?_⟩⟩
  · show SYSTEM_PROMPT ++ "TITLE:\n" ++ r.title ++ "\n\n" ++ "QUESTION:\n" ++ r.question ≠ ""
    apply string_append_ne_empty
    apply string_prefix_data_ne_nil
    apply string_prefix_data_ne_nil
    apply string_prefix_data_ne_nil
    apply string_prefix_data_ne_nil
    decide
  · cases has_tags <;> simp [format_record]

/-- C3: the word-count filter of the curation pipeline keeps a question
iff its word count lies in the inclusive range [50, 500], and hence every
record surviving the word-count filter stage has a question of 50 to 500
words. -/
theorem C3_word_count_filter_bounds :
    (∀ q : String,
      word_count_filter_keep 50 500 q = true ↔ (50 ≤ word_count q ∧ word_count q ≤ 500)) ∧
    ∀ (rows : List RawRecord), ∀ r ∈ curation_word_filter rows,
      50 ≤ word_count r.question ∧ word_count r.question ≤ 500 := by
  constructor
  · intro q
    simp [word_count_filter_keep]
  · intro rows r hr
    have hk := (List.mem_filter.mp hr).2
    simpa [word_count_filter_keep] using hk

set_option maxRecDepth 8192 in
/-- Witness for C3 at a concrete surviving record. -/
theorem C3_word_count_filter_bounds_witness :
    sample_passing_record ∈ curation_word_filter [sample_passing_record] ∧
    (50 ≤ word_count sample_passing_record.question ∧
      word_count sample_passing_record.question ≤ 500) :=
  ⟨by decide,
    C3_word_count_filter_bounds.2 [sample_passing_record] sample_passing_record (by decide)⟩

/-- C4: the score-threshold filter of the curation pipeline passes a
record iff its (untransformed) score is at least the threshold 0, and
hence every record surviving the score filter stage has a non-negative
question score. -/
theorem C4_score_filter_threshold :
    (∀ s : Int, filter_low_scores_keep 0 s = true ↔ 0 ≤ s) ∧
    ∀ (rows : List RawRecord), ∀ r ∈ curation_score_filter rows,
      0 ≤ r.question_score := by
  constructor
  · intro s
    simp [filter_low_scores_keep]
  · intro rows r hr
    have hk := (List.mem_filter.mp hr).2
    simpa [filter_low_scores_keep] using hk

/-- Witness for C4 at a concrete surviving record. -/
theorem C4_score_filter_threshold_witness :
    sample_scored_record ∈ curation_score_filter [sample_scored_record] ∧
    0 ≤ sample_scored_record.question_score :=
  ⟨by decide,
    C4_score_filter_threshold.2 [sample_scored_record] sample_scored_record (by decide)⟩

/-- C1 counterexample: with a dataset of 30 records and the workflow's
ratio 0.05, the code's validation partition has `int(30 * 0.05) = 1`
record while `round(30 * 0.05) = round(1.5) = 2`, so "validation
partition size = round(N*v)" is false as stated.  (The partition sizes do
not depend on which permutation the seeded shuffle produces; the identity
order is used here.) -/
theorem C1_round_size_counterexample :
    (train_test_split (List.range 30) (val_size 30 VAL_RATIO)).2.length
      ≠ (round ((30 : ℚ) * VAL_RATIO)).toNat := by
  have hv : val_size 30 VAL_RATIO = 1 := by
    norm_num [val_size, VAL_RATIO]
  have hr : (round ((30 : ℚ) * VAL_RATIO)).toNat = 2 := by
    norm_num [ VAL_RATIO, round_eq]
    decide
  rw [hr]
  simp [train_test_split, hv]

/-- C1 (amended): for every dataset of N records and ratio v in [0,1],
the validation partition has size `int(N*v)` — the floor (truncation) of
N*v, not its rounding — and the train partition has size N minus the
validation size. -/
theorem C1_split_sizes_floor {α : Type} (df shuffled : List α) (ratio : ℚ)
    (_h0 : 0 ≤ ratio) (h1 : ratio ≤ 1) (hs : shuffled.Perm df) :
    (train_test_split shuffled (val_size df.length ratio)).2.length
        = val_size df.length ratio ∧
    (train_test_split shuffled (val_size df.length ratio)).1.length
        = df.length - val_size df.length ratio := by
  have hlen : shuffled.length = df.length := hs.length_eq
  have hle : val_size df.length ratio ≤ df.length := by
    have hxle : (df.length : ℚ) * ratio ≤ (df.length : ℚ) := by
      calc (df.length : ℚ) * ratio ≤ (df.length : ℚ) * 1 :=
            mul_le_mul_of_nonneg_left h1 (by positivity)
        _ = (df.length : ℚ) := mul_one _
    have hf : ⌊(df.length : ℚ) * ratio⌋ ≤ (df.length : ℤ) := by
      have hm := Int.floor_mono hxle
      rwa [Int.floor_natCast] at hm
    exact Int.toNat_le.mpr hf
  constructor
  · simp [train_test_split, hlen, Nat.min_eq_left hle]
  · simp [train_test_split, hlen]

/-- Witness for C1 (amended) at a concrete dataset and ratio. -/
theorem C1_split_sizes_floor_witness :
    (0 : ℚ) ≤ 1 / 2 ∧ (1 / 2 : ℚ) ≤ 1 ∧ ([2, 0, 1] : List ℕ).Perm [0, 1, 2] ∧
    ((train_test_split [2, 0, 1] (val_size ([0, 1, 2] : List ℕ).length (1 / 2))).2.length
        = val_size ([0, 1, 2] : List ℕ).length (1 / 2) ∧
      (train_test_split [2, 0, 1] (val_size ([0, 1, 2] : List ℕ).length (1 / 2))).1.length
        = ([0, 1, 2] : List ℕ).length - val_size ([0, 1, 2] : List ℕ).length (1 / 2)) :=
  ⟨by norm_num, by norm_num, by decide,
    C1_split_sizes_floor [0, 1, 2] [2, 0, 1] (1 / 2) (by norm_num) (by norm_num) (by decide)⟩

/-- C5: the train and validation partitions are disjoint and their union
is the curated dataset: the two partitions together are a permutation of
the input, and (for a dataset without duplicate records) every record of
the input lands in exactly one of the two partitions. -/
theorem C5_split_partition {α : Type} (df shuffled : List α) (k : Nat)
    (hs : shuffled.Perm df) (hnd : df.Nodup) :
    ((train_test_split shuffled k).1 ++ (train_test_split shuffled k).2).Perm df ∧
    ∀ r ∈ df,
      (r ∈ (train_test_split shuffled k).1 ∧ r ∉ (train_test_split shuffled k).2) ∨
      (r ∈ (train_test_split shuffled k).2 ∧ r ∉ (train_test_split shuffled k).1) := by
  have hnds : shuffled.Nodup := hs.nodup_iff.mpr hnd
  have hdisj : List.Disjoint (shuffled.take k) (shuffled.drop k) :=
    List.disjoint_take_drop hnds (le_refl k)
  have hta : shuffled.take k ++ shuffled.drop k = shuffled := List.take_append_drop k shuffled
  constructor
  · have h1 : (shuffled.drop k ++ shuffled.take k).Perm (shuffled.take k ++ shuffled.drop k) :=
      List.perm_append_comm
    have h2 : (shuffled.take k ++ shuffled.drop k).Perm df := by
      rw [hta]; exact hs
    exact h1.trans h2
  · intro r hr
    have hrs : r ∈ shuffled := hs.mem_iff.mpr hr
    rw [← hta] at hrs
    rcases List.mem_append.mp hrs with h | h
    · exact Or.inr ⟨h, fun hc => hdisj h hc⟩
    · exact Or.inl ⟨h, fun hc => hdisj hc h⟩

/-- Witness for C5 at a concrete dataset, shuffle and split point. -/
theorem C5_split_partition_witness :
    ([2, 0, 1] : List ℕ).Perm [0, 1, 2] ∧ ([0, 1, 2] : List ℕ).Nodup ∧
    (((train_test_split [2, 0, 1] 1).1 ++ (train_test_split [2, 0, 1] 1).2).Perm
        ([0, 1, 2] : List ℕ) ∧
      ∀ r ∈ ([0, 1, 2] : List ℕ),
        (r ∈ (train_test_split [2, 0, 1] 1).1 ∧ r ∉ (train_test_split [2, 0, 1] 1).2) ∨
        (r ∈ (train_test_split [2, 0, 1] 1).2 ∧ r ∉ (train_test_split [2, 0, 1] 1).1)) :=
  ⟨by decide, by decide, C5_split_partition [0, 1, 2] [2, 0, 1] 1 (by decide) (by decide)⟩

/-- C8: the splitting cell fails with a fatal assertion error — and hence
produces no split output pair — exactly when the dataset is empty or the
validation ratio lies outside the inclusive range [0,1]; the split result
exists only in the non-error branch. -/
theorem C8_split_assert_guard {α : Type} (df shuffled : List α) (ratio : ℚ) :
    (∃ msg, split_cell df ratio shuffled = .error msg) ↔
      (df.length = 0 ∨ ratio < 0 ∨ 1 < ratio) := by
  constructor
  · rintro ⟨msg, hmsg⟩
    by_contra hcon
    push_neg at hcon
    obtain ⟨h1, h2, h3⟩ := hcon
    rw [split_cell, if_neg h1, if_neg (not_not_intro ⟨h2, h3⟩)] at hmsg
    exact Except.noConfusion hmsg
  · intro h
    by_cases hd : df.length = 0
    · exact ⟨"The dataset is empty.", by rw [split_cell, if_pos hd]⟩
    · have hbad : ¬ (0 ≤ ratio ∧ ratio ≤ 1) := by
        rcases h with h | h | h
        · exact absurd h hd
        · exact fun hc => absurd h (not_lt.mpr hc.1)
        · exact fun hc => absurd h (not_lt.mpr hc.2)
      exact ⟨"VAL_RATIO must be between 0 and 1.",
        by rw [split_cell, if_neg hd, if_pos hbad]⟩
